import Mathlib

/-!
Shallow embedding of `src/server/services/nlp_query_processor.py`
(class `HealthcareNLQueryProcessor` and function `main`).

The processor receives a query-data dictionary, optionally short-circuits
when the OpenAI API key is falsy, otherwise sends one message to the
language-model service, decodes its answer with `json.loads`, fills in
mock aggregate tables keyed by the decoded `queryType`, and returns one
response dictionary.  Exceptions inside `process_query` are caught by its
own `except` block; the one fault that escapes it (a missing `query` key,
whose handler references the then-unbound local `query`) is caught by
`main`'s outer `except`.

Python dictionaries with a fixed set of interesting keys are embedded as
structures of `Option` fields (`none` = key absent).  JSON numbers that
appear in the mock tables are naturals; the percentage literals are kept
exactly as tenths (e.g. `85.3` is `vPct 853`).  The external collaborators
(`chat.send_message`, `json.loads`) are parameters of the environment: the
model output is an arbitrary string or a raised exception, and decoding an
arbitrary string yields a decode error, a non-dict JSON value, or a dict.
-/

namespace NLQ

/-- A JSON-ish field value as it occurs in the mock result tables and in
decoded upstream payloads: strings, counts, percentage literals (stored as
tenths: `85.3` is `vPct 853`), and lists of strings. -/
inductive Value where
  | vStr (s : String)
  | vNat (n : Nat)
  | vPct (tenths : Nat)
  | vStrList (l : List String)
deriving DecidableEq, Repr

/-- One element of the `results` sequence: a JSON object, embedded as an
association list of field name and value. -/
abbrev ResultRecord := List (String × Value)

/-- One point of a chart's `data` array: `{"label": ..., "value": ...}`. -/
structure ChartPoint where
  label : String
  value : Nat
deriving DecidableEq, Repr

/-- A chart descriptor: `{"type": ..., "title": ..., "data": [...]}`. -/
structure Chart where
  type : String
  title : String
  data : List ChartPoint
deriving DecidableEq, Repr

/-- The response dictionary built and returned by the processor (also the
shape of a decoded upstream JSON object).  Every field is optional because
the Python dictionaries on the different paths carry different key sets;
`none` means the key is absent. -/
structure QueryResponse where
  success : Option Bool := none
  error : Option String := none
  interpretation : Option String := none
  queryType : Option String := none
  mongoQuery : Option (List (String × Value)) := none
  sqlQuery : Option String := none
  results : Option (List ResultRecord) := none
  resultCount : Option Int := none
  executionTime : Option String := none
  summary : Option String := none
  charts : Option (List Chart) := none
  suggestions : Option (List String) := none
deriving DecidableEq, Repr

/-- The query-data dictionary handed to `process_query`: `query_data['query']`
raises `KeyError` when absent, `userRole` and `requestId` are read with
`.get` and defaults. -/
structure QueryData where
  query : Option String := none
  userRole : Option String := none
  requestId : Option String := none
deriving DecidableEq, Repr

/-- Outcome of the single `chat.send_message` call: the returned free text,
or a raised exception with message `msg`. -/
inductive LLMOutcome where
  | ok (raw : String)
  | raise (msg : String)

/-- Outcome of `json.loads` on the upstream text: a `json.JSONDecodeError`,
a successfully decoded non-dict value (on which the subsequent
`result['executionTime'] = ...` item assignment raises `TypeError`), or a
decoded JSON object. -/
inductive DecodeOutcome where
  | failed
  | nonDict
  | dict (r : QueryResponse)

/-- The per-invocation environment: the `OPENAI_API_KEY` value from the
process environment (`none` = unset), the behaviour of the external
language-model call, the behaviour of `json.loads` on its raw answer, and
the elapsed wall-clock milliseconds measured around the call. -/
structure Env where
  apiKey : Option String
  llm : LLMOutcome
  decode : String → DecodeOutcome
  elapsedMs : Nat

/-- `if not self.openai_api_key:` — Python falsiness of the credential:
true when the environment variable is unset or the empty string. -/
def api_key_falsy (k : Option String) : Bool :=
  match k with
  | none => true
  | some s => s = ""

/-- `f"{execution_time:.0f}ms"` with a whole number of milliseconds. -/
def format_ms (ms : Nat) : String := toString ms ++ "ms"

/-- `get_mock_patient_search_results` — the fixed anonymized table. -/
def get_mock_patient_search_results : List ResultRecord :=
  [ [("ageRange", .vStr "25-35"), ("count", .vNat 15), ("percentage", .vPct 300)],
    [("ageRange", .vStr "36-45"), ("count", .vNat 20), ("percentage", .vPct 400)],
    [("ageRange", .vStr "46-55"), ("count", .vNat 10), ("percentage", .vPct 200)],
    [("ageRange", .vStr "56-65"), ("count", .vNat 5), ("percentage", .vPct 100)] ]

/-- `get_mock_medical_analysis_results` — the fixed condition table. -/
def get_mock_medical_analysis_results : List ResultRecord :=
  [ [("condition", .vStr "High Blood Pressure"), ("count", .vNat 25), ("percentage", .vPct 155)],
    [("condition", .vStr "Diabetes"), ("count", .vNat 18), ("percentage", .vPct 112)],
    [("condition", .vStr "Heart Disease"), ("count", .vNat 12), ("percentage", .vPct 75)],
    [("condition", .vStr "Respiratory Issues"), ("count", .vNat 8), ("percentage", .vPct 50)] ]

/-- `get_mock_compliance_results` — the fixed completion-status table. -/
def get_mock_compliance_results : List ResultRecord :=
  [ [("status", .vStr "Completed"), ("count", .vNat 145), ("percentage", .vPct 853)],
    [("status", .vStr "In Progress"), ("count", .vNat 18), ("percentage", .vPct 106)],
    [("status", .vStr "Incomplete"), ("count", .vNat 7), ("percentage", .vPct 41)] ]

/-- `get_mock_risk_assessment_results` — the fixed risk-level table. -/
def get_mock_risk_assessment_results : List ResultRecord :=
  [ [("riskLevel", .vStr "High"), ("count", .vNat 8),
     ("conditions", .vStrList ["Multiple medical alerts", "Working at heights"])],
    [("riskLevel", .vStr "Medium"), ("count", .vNat 22),
     ("conditions", .vStrList ["Single medical condition"])],
    [("riskLevel", .vStr "Low"), ("count", .vNat 120),
     ("conditions", .vStrList ["No significant risks"])] ]

/-- `get_mock_operational_results` — the fixed throughput table. -/
def get_mock_operational_results : List ResultRecord :=
  [ [("examinationType", .vStr "Pre-Employment"), ("avgTime", .vStr "45 minutes"), ("count", .vNat 85)],
    [("examinationType", .vStr "Periodic"), ("avgTime", .vStr "35 minutes"), ("count", .vNat 62)],
    [("examinationType", .vStr "Exit"), ("avgTime", .vStr "25 minutes"), ("count", .vNat 23)] ]

/-- `get_mock_medical_charts` — one pie chart. -/
def get_mock_medical_charts : List Chart :=
  [ { type := "pie", title := "Medical Conditions Distribution",
      data := [⟨"High Blood Pressure", 25⟩, ⟨"Diabetes", 18⟩,
               ⟨"Heart Disease", 12⟩, ⟨"Other", 30⟩] } ]

/-- `get_mock_compliance_charts` — one bar chart of completion buckets. -/
def get_mock_compliance_charts : List Chart :=
  [ { type := "bar", title := "Questionnaire Completion Status",
      data := [⟨"Completed", 145⟩, ⟨"In Progress", 18⟩, ⟨"Incomplete", 7⟩] } ]

/-- `get_mock_operational_charts` — one line chart. -/
def get_mock_operational_charts : List Chart :=
  [ { type := "line", title := "Average Examination Time by Type",
      data := [⟨"Pre-Employment", 45⟩, ⟨"Periodic", 35⟩, ⟨"Exit", 25⟩] } ]

/-- `create_mock_response(query, error_msg)` — the envelope returned when
the credential is falsy, before any upstream call. -/
def create_mock_response (query error_msg : String) : QueryResponse :=
  { success := some false,
    error := some error_msg,
    interpretation := some ("Unable to process query: " ++ query),
    queryType := some "UNKNOWN",
    mongoQuery := some [],
    sqlQuery := some "",
    results := some [],
    resultCount := some 0,
    executionTime := some "0ms",
    summary := some "AI service not configured. Please set OPENAI_API_KEY environment variable.",
    charts := some [],
    suggestions := some
      [ "Set up OpenAI API key to enable natural language queries",
        "Try using the manual query interface",
        "Contact administrator for assistance" ] }

/-- `response[:200]` in `parse_natural_response`: the first 200 characters
of the string, with `"..."` appended when it was longer. -/
def truncate_200 (s : String) : String :=
  if s.length > 200 then String.mk (s.toList.take 200 ++ ['.', '.', '.']) else s

/-- `parse_natural_response(response, query, execution_time)` — the degraded
fallback built when `json.loads` on the upstream text raises. -/
def parse_natural_response (response query : String) (ms : Nat) : QueryResponse :=
  { success := some true,
    interpretation := some ("AI interpretation of: " ++ query),
    queryType := some "GENERAL",
    mongoQuery := some [],
    sqlQuery := some "",
    results := some [[("response", .vStr response)]],
    resultCount := some 1,
    executionTime := some (format_ms ms),
    summary := some (truncate_200 response),
    charts := some [],
    suggestions := some ["Try a more specific query", "Ask about patient statistics"] }

/-- The envelope built by the `except` block of `process_query` (reachable
once the local `query` is bound). -/
def process_query_except_envelope (query msg : String) : QueryResponse :=
  { success := some false,
    error := some msg,
    interpretation := some ("Failed to process query: " ++ query),
    suggestions := some ["Try rephrasing your question", "Use simpler medical terms"] }

/-- `execute_query(ai_result, query_data)` — fills in the mock tables keyed
by the decoded `queryType` (default `UNKNOWN` when the key is absent);
every other query type leaves the dictionary untouched.  The `query_data`
argument is accepted and unused, as in the source. -/
def execute_query (ai_result : QueryResponse) (_query_data : QueryData) : QueryResponse :=
  let query_type := ai_result.queryType.getD "UNKNOWN"
  if query_type = "PATIENT_SEARCH" then
    { ai_result with
      results := some get_mock_patient_search_results,
      resultCount := some (get_mock_patient_search_results.length : Int) }
  else if query_type = "MEDICAL_ANALYSIS" then
    { ai_result with
      results := some get_mock_medical_analysis_results,
      resultCount := some (get_mock_medical_analysis_results.length : Int),
      charts := some get_mock_medical_charts }
  else if query_type = "COMPLIANCE_REPORTING" then
    { ai_result with
      results := some get_mock_compliance_results,
      resultCount := some (get_mock_compliance_results.length : Int),
      charts := some get_mock_compliance_charts }
  else if query_type = "RISK_ASSESSMENT" then
    { ai_result with
      results := some get_mock_risk_assessment_results,
      resultCount := some (get_mock_risk_assessment_results.length : Int) }
  else if query_type = "OPERATIONAL_INSIGHTS" then
    { ai_result with
      results := some get_mock_operational_results,
      resultCount := some (get_mock_operational_results.length : Int),
      charts := some get_mock_operational_charts }
  else
    ai_result

/-- `process_query(query_data)` together with a flag recording whether the
`chat.send_message` call was reached.  `Except.error` models the one fault
that escapes the function: when `query_data['query']` raises `KeyError`,
the `except` handler's f-string references the unbound local `query` and
itself raises, propagating to the caller. -/
def process_query_core (env : Env) (query_data : QueryData) :
    Except String QueryResponse × Bool :=
  match query_data.query with
  | none => (.error "UnboundLocalError: query", false)
  | some query =>
    if api_key_falsy env.apiKey then
      (.ok (create_mock_response query "OpenAI API key not configured"), false)
    else
      match env.llm with
      | .raise msg => (.ok (process_query_except_envelope query msg), true)
      | .ok raw =>
        match env.decode raw with
        | .failed => (.ok (parse_natural_response raw query env.elapsedMs), true)
        | .nonDict =>
          (.ok (process_query_except_envelope query
            "TypeError: object does not support item assignment"), true)
        | .dict result =>
          let result := { result with executionTime := some (format_ms env.elapsedMs) }
          (.ok (execute_query result query_data), true)

/-- The value returned to (or the fault propagated to) the caller of
`process_query`. -/
def process_query (env : Env) (query_data : QueryData) : Except String QueryResponse :=
  (process_query_core env query_data).1

/-- Whether the invocation reached the outbound `chat.send_message` call. -/
def llm_called (env : Env) (query_data : QueryData) : Bool :=
  (process_query_core env query_data).2

/-- The envelope built by `main`'s outer `except` block. -/
def main_error_envelope (msg : String) : QueryResponse :=
  { success := some false,
    error := some msg,
    interpretation := some "Failed to process query",
    suggestions := some ["Check query format", "Try again later"] }

/-- The `try` body of `main` around `process_query`: a fault propagated out
of `process_query` is caught and converted to the generic envelope. -/
def main_handle (env : Env) (query_data : QueryData) : QueryResponse :=
  match process_query env query_data with
  | .ok r => r
  | .error e => main_error_envelope e

/-- The whole of `main` after argument retrieval: `none` models a missing
`sys.argv[1]` (the bare `{"error": ...}` object is printed), `arg_decode`
models `json.loads` on the argument string (a raised decode error is caught
by the same outer `except`). -/
def main_run (env : Env) (arg_decode : String → Except String QueryData)
    (arg : Option String) : QueryResponse :=
  match arg with
  | none => { error := some "No query data provided" }
  | some s =>
    match arg_decode s with
    | .error e => main_error_envelope e
    | .ok query_data => main_handle env query_data

/-! ### Predicates used to state the claims -/

/-- `pat` occurs as a contiguous run inside the list. -/
def occurs_within (pat : List Char) : List Char → Bool
  | [] => pat.isEmpty
  | c :: rest => pat.isPrefixOf (c :: rest) || occurs_within pat rest

/-- `pat` occurs as a contiguous substring of `s`. -/
def contains_substr (s pat : String) : Bool :=
  occurs_within pat.toList s.toList

/-- Modelled from the spec: the SafetyPolicy text pattern "requesting raw
identifiable records (e.g., asking to list names or show ID numbers)".
No such pattern exists anywhere in the source; this definition follows the
spec examples so the claim about it can be stated. -/
def spec_requests_raw_identifiers (s : String) : Bool :=
  contains_substr s "list patient names" || contains_substr s "list names" ||
    contains_substr s "show ID numbers"

/-- Length of the longest run of consecutive decimal digits in the list. -/
def max_digit_run (l : List Char) : Nat :=
  (l.foldl (fun acc c =>
    let cur := if c.isDigit then acc.1 + 1 else 0
    (cur, max acc.2 cur)) ((0 : Nat), (0 : Nat))).2

/-- Modelled from the spec: a "direct-identifier pattern (… national ID…)".
A South African national ID number is a run of 13 consecutive digits (see
`TEST_SA_ID = "7807215422081"` in `src/backend_test.py`); a string matches
when it contains such a run. -/
def has_id_number (s : String) : Bool :=
  13 ≤ max_digit_run s.toList

/-- A field value contains a direct-identifier pattern. -/
def value_has_identifier : Value → Bool
  | .vStr s => has_id_number s
  | .vStrList l => l.any has_id_number
  | .vNat _ => false
  | .vPct _ => false

/-- Some field of some record of the `results` sequence matches a
direct-identifier pattern. -/
def results_have_identifier (rs : List ResultRecord) : Bool :=
  rs.any fun rec => rec.any fun p => value_has_identifier p.2

/-- Invariant claimed in the spec: `resultCount == length(results)` —
both keys are present and the count equals the length. -/
def count_eq (r : QueryResponse) : Prop :=
  ∃ l, r.results = some l ∧ r.resultCount = some (l.length : Int)

/-- Invariant claimed in the spec: `error` is non-null iff `success == false`. -/
def err_iff (r : QueryResponse) : Prop :=
  r.error ≠ none ↔ r.success = some false

/-- The five structured intents handled by `execute_query`. -/
def structured_intents : List String :=
  ["PATIENT_SEARCH", "MEDICAL_ANALYSIS", "COMPLIANCE_REPORTING",
   "RISK_ASSESSMENT", "OPERATIONAL_INSIGHTS"]

/-- Sum of the `value` fields of a chart's data points. -/
def chart_values_sum (c : Chart) : Nat :=
  (c.data.map ChartPoint.value).sum

/-- The `count` field of a result record (0 when absent). -/
def record_count (rec : ResultRecord) : Nat :=
  rec.foldl (fun acc p =>
    match p with
    | ("count", .vNat n) => acc + n
    | _ => acc) 0

/-- Total examined population of a results table: the sum of its `count`
fields. -/
def results_count_sum (rs : List ResultRecord) : Nat :=
  (rs.map record_count).sum

/-! ### Concrete fixtures used by the claim theorems -/

/-- Identifier-seeking request with no role, credential configured, model
answer not valid JSON. -/
def c1_env : Env :=
  { apiKey := some "sk-test", llm := .ok "Here are all the patients",
    decode := fun _ => .failed, elapsedMs := 12 }

/-- The request the spec gives as an example of a denied query. -/
def c1_query_data : QueryData := { query := some "list patient names" }

/-- An upstream payload (as decoded by `json.loads`) whose `resultCount`
does not match `results`; its JSON source text would be
`{"success": true, "queryType": "GENERAL", "results": [], "resultCount": 5}`. -/
def c2_upstream : QueryResponse :=
  { success := some true, queryType := some "GENERAL",
    results := some [], resultCount := some 5 }

def c2_env : Env :=
  { apiKey := some "sk-test", llm := .ok "upstream-json-c2",
    decode := fun _ => .dict c2_upstream, elapsedMs := 7 }

def c2_query_data : QueryData :=
  { query := some "how many exams last month", userRole := some "staff",
    requestId := some "r1" }

/-- An upstream payload with `success` false and no `error` key; its JSON
source text would be `{"success": false, "queryType": "GENERAL",
"results": [], "resultCount": 0}`. -/
def c3_upstream : QueryResponse :=
  { success := some false, queryType := some "GENERAL",
    results := some [], resultCount := some 0 }

def c3_env : Env :=
  { apiKey := some "sk-test", llm := .ok "upstream-json-c3",
    decode := fun _ => .dict c3_upstream, elapsedMs := 3 }

def c3_query_data : QueryData := { query := some "status of exams" }

/-- A raw model answer that is not JSON and contains a 13-digit national
ID number. -/
def c4_raw : String :=
  "Patient John Smith with ID number 7807215422081 has diabetes"

def c4_env : Env :=
  { apiKey := some "sk-test", llm := .ok c4_raw,
    decode := fun _ => .failed, elapsedMs := 4 }

def c4_query_data : QueryData := { query := some "tell me about recent patients" }

def c5_env : Env :=
  { apiKey := some "sk-test", llm := .ok "plain text answer",
    decode := fun _ => .failed, elapsedMs := 9 }

def c5_query_data : QueryData := { query := some "summarize exams" }

/-- Credential unset in the process environment. -/
def c6_env : Env :=
  { apiKey := none, llm := .ok "never reached",
    decode := fun _ => .failed, elapsedMs := 0 }

def c6_query_data : QueryData := { query := some "find patients with diabetes" }

def c7_env : Env :=
  { apiKey := some "sk-test", llm := .ok "irrelevant",
    decode := fun _ => .failed, elapsedMs := 1 }

/-- A query-data dictionary with no `query` key: `process_query` raises. -/
def c7_query_data : QueryData := { userRole := some "staff" }

/-- An upstream payload classified as compliance reporting; its JSON source
text would be `{"success": true, "queryType": "COMPLIANCE_REPORTING",
"interpretation": "completion status", "summary": "s"}`. -/
def c8_upstream : QueryResponse :=
  { success := some true, queryType := some "COMPLIANCE_REPORTING",
    interpretation := some "completion status", summary := some "s" }

def c8_env : Env :=
  { apiKey := some "sk-test", llm := .ok "upstream-json-c8",
    decode := fun _ => .dict c8_upstream, elapsedMs := 6 }

def c8_query_data : QueryData := { query := some "how many questionnaires are complete" }

/-- An upstream payload with an unroutable query type and non-empty
`results` and `charts`; its JSON source text would be
`{"success": true, "queryType": "UNKNOWN", "results": [{"note": "free-form"}],
"resultCount": 1, "charts": [{"type": "pie", "title": "T",
"data": [{"label": "A", "value": 1}]}]}`. -/
def c9_upstream : QueryResponse :=
  { success := some true, queryType := some "UNKNOWN",
    results := some [[("note", .vStr "free-form")]], resultCount := some 1,
    charts := some [{ type := "pie", title := "T", data := [⟨"A", 1⟩] }] }

def c9_env : Env :=
  { apiKey := some "sk-test", llm := .ok "upstream-json-c9",
    decode := fun _ => .dict c9_upstream, elapsedMs := 2 }

def c9_query_data : QueryData := { query := some "what is the weather" }

/-- A decoded payload routed to the patient-search branch, used to
instantiate universally quantified theorems. -/
def cw_upstream : QueryResponse := { queryType := some "PATIENT_SEARCH" }

def cw_query_data : QueryData := { query := some "find patients" }

/-! ### Theorems -/

/-- The summary built by `parse_natural_response` never exceeds 203
characters (200 kept characters plus the `"..."` marker). -/
theorem truncate_200_length (s : String) : (truncate_200 s).length ≤ 203 := by
  unfold truncate_200
  split
  · show (s.toList.take 200 ++ ['.', '.', '.']).length ≤ 203
    rw [List.length_append, List.length_take]
    have hb : (['.', '.', '.'] : List Char).length = 3 := rfl
    omega
  · omega

/-- Claim C1: the spec asserts that a request whose text matches an
identifier-seeking pattern, or whose role is absent, short-circuits to a
failure envelope without calling the language-model service.  The code has
no such check: on the request "list patient names" with no role and a
configured credential, the language-model service is called and the
emitted envelope is a success with non-empty results and null error. -/
theorem C1_counterexample :
    spec_requests_raw_identifiers "list patient names" = true ∧
    c1_query_data.userRole = none ∧
    llm_called c1_env c1_query_data = true ∧
    process_query c1_env c1_query_data =
      .ok (parse_natural_response "Here are all the patients" "list patient names" 12) ∧
    (parse_natural_response "Here are all the patients" "list patient names" 12).success
      = some true ∧
    (parse_natural_response "Here are all the patients" "list patient names" 12).error
      = none ∧
    (parse_natural_response "Here are all the patients" "list patient names" 12).results
      ≠ some [] :=
  ⟨by decide, rfl, rfl, rfl, rfl, rfl, by decide⟩

/-- Claim C1 (amended): the pipeline performs no safety pre-check — for
every request carrying a query text, whenever the credential is not falsy
the language-model service is called, regardless of the query text and of
the role. -/
theorem C1_amended (env : Env) (qd : QueryData) (q : String)
    (hq : qd.query = some q) (hk : api_key_falsy env.apiKey = false) :
    llm_called env qd = true := by
  unfold llm_called process_query_core
  rw [hq]
  simp only [hk, Bool.false_eq_true, if_false]
  cases env.llm with
  | raise m => rfl
  | ok raw => cases h : env.decode raw <;> simp [h]

/-- Witness for C1 (amended) at the concrete identifier-seeking request. -/
theorem C1_amended_witness :
    c1_query_data.query = some "list patient names" ∧
    api_key_falsy c1_env.apiKey = false ∧
    llm_called c1_env c1_query_data = true :=
  ⟨rfl, rfl, C1_amended c1_env c1_query_data "list patient names" rfl rfl⟩

/-- Claim C5: when the upstream raw text fails JSON decoding, the pipeline
returns the degraded fallback envelope: `success` true, `queryType`
GENERAL, `results` the single raw-text record, `resultCount` 1, and a
summary that copies the raw text truncated to at most 203 characters. -/
theorem C5_decode_failure_fallback (env : Env) (qd : QueryData) (q raw : String)
    (hq : qd.query = some q) (hk : api_key_falsy env.apiKey = false)
    (hl : env.llm = .ok raw) (hd : env.decode raw = .failed) :
    process_query env qd = .ok (parse_natural_response raw q env.elapsedMs) ∧
    (parse_natural_response raw q env.elapsedMs).success = some true ∧
    (parse_natural_response raw q env.elapsedMs).queryType = some "GENERAL" ∧
    (parse_natural_response raw q env.elapsedMs).results
      = some [[("response", .vStr raw)]] ∧
    (parse_natural_response raw q env.elapsedMs).resultCount = some 1 ∧
    (parse_natural_response raw q env.elapsedMs).summary = some (truncate_200 raw) ∧
    (truncate_200 raw).length ≤ 203 := by
  refine ⟨?_, rfl, rfl, rfl, rfl, rfl, truncate_200_length raw⟩
  unfold process_query process_query_core
  rw [hq]
  simp only [hk, Bool.false_eq_true, if_false, hl, hd]

/-- Witness for C5 at a concrete non-JSON upstream answer. -/
theorem C5_decode_failure_fallback_witness :
    c5_env.decode "plain text answer" = .failed ∧
    api_key_falsy c5_env.apiKey = false ∧
    process_query c5_env c5_query_data =
      .ok (parse_natural_response "plain text answer" "summarize exams" 9) :=
  ⟨rfl, rfl,
    (C5_decode_failure_fallback c5_env c5_query_data "summarize exams"
      "plain text answer" rfl rfl rfl rfl).1⟩

/-- Claim C6: when the language-model credential is absent from the
process environment, the pipeline immediately returns the configuration
failure envelope — `success` false, a human-readable summary naming the
missing configuration, non-empty suggestions — and the language-model
service is not called. -/
theorem C6_missing_credential (env : Env) (qd : QueryData) (q : String)
    (hq : qd.query = some q) (hk : env.apiKey = none) :
    process_query env qd = .ok (create_mock_response q "OpenAI API key not configured") ∧
    (create_mock_response q "OpenAI API key not configured").success = some false ∧
    (create_mock_response q "OpenAI API key not configured").summary =
      some "AI service not configured. Please set OPENAI_API_KEY environment variable." ∧
    (∃ sugg, (create_mock_response q "OpenAI API key not configured").suggestions
      = some sugg ∧ sugg ≠ []) ∧
    llm_called env qd = false := by
  have hfalsy : api_key_falsy env.apiKey = true := by rw [hk]; rfl
  refine ⟨?_, rfl, rfl, ⟨_, rfl, by decide⟩, ?_⟩
  · unfold process_query process_query_core
    rw [hq]
    simp only [hfalsy, if_true]
  · unfold llm_called process_query_core
    rw [hq]
    simp only [hfalsy, if_true]

/-- Witness for C6 at a concrete request with the credential unset. -/
theorem C6_missing_credential_witness :
    c6_env.apiKey = none ∧
    process_query c6_env c6_query_data =
      .ok (create_mock_response "find patients with diabetes" "OpenAI API key not configured") ∧
    llm_called c6_env c6_query_data = false :=
  ⟨rfl,
    (C6_missing_credential c6_env c6_query_data "find patients with diabetes" rfl rfl).1,
    (C6_missing_credential c6_env c6_query_data "find patients with diabetes" rfl rfl).2.2.2.2⟩

/-- Claim C2: the spec asserts `resultCount == length(results)` for every
emitted response.  False: when the decoded query type is outside the five
structured intents, `execute_query` leaves both keys exactly as the
upstream model produced them; on the concrete decoded payload with
`results == []` and `resultCount == 5` the pipeline emits the mismatch. -/
theorem C2_counterexample :
    process_query c2_env c2_query_data =
      .ok { c2_upstream with executionTime := some "7ms" } ∧
    ({ c2_upstream with executionTime := some "7ms" } : QueryResponse).results = some [] ∧
    ({ c2_upstream with executionTime := some "7ms" } : QueryResponse).resultCount = some 5 ∧
    ¬ count_eq { c2_upstream with executionTime := some "7ms" } := by
  refine ⟨rfl, rfl, rfl, ?_⟩
  rintro ⟨l, hl, hc⟩
  have hl' : some ([] : List ResultRecord) = some l := hl
  cases hl'
  exact absurd hc (by decide)

/-- Claim C2 (amended): `resultCount == length(results)` holds on every
envelope the code itself constructs — the configuration-failure envelope,
the degraded-parse fallback, and the five structured execution paths;
outside the five intents `execute_query` passes the decoded upstream
values through unchanged, and the exception envelope carries neither key. -/
theorem C2_amended :
    (∀ q m, count_eq (create_mock_response q m)) ∧
    (∀ raw q ms, count_eq (parse_natural_response raw q ms)) ∧
    (∀ r qd, r.queryType.getD "UNKNOWN" ∈ structured_intents →
      count_eq (execute_query r qd)) ∧
    (∀ r qd, r.queryType.getD "UNKNOWN" ∉ structured_intents →
      execute_query r qd = r) ∧
    (∀ q m, (process_query_except_envelope q m).results = none ∧
      (process_query_except_envelope q m).resultCount = none) := by
  refine ⟨fun q m => ⟨[], rfl, rfl⟩,
    fun raw q ms => ⟨[[("response", .vStr raw)]], rfl, rfl⟩,
    ?_, ?_, fun q m => ⟨rfl, rfl⟩⟩
  · intro r qd h
    simp only [structured_intents, List.mem_cons, List.not_mem_nil, or_false] at h
    unfold execute_query
    rcases h with h | h | h | h | h <;> simp only [h, reduceIte]
    · exact ⟨get_mock_patient_search_results, rfl, rfl⟩
    · exact ⟨get_mock_medical_analysis_results, rfl, rfl⟩
    · exact ⟨get_mock_compliance_results, rfl, rfl⟩
    · exact ⟨get_mock_risk_assessment_results, rfl, rfl⟩
    · exact ⟨get_mock_operational_results, rfl, rfl⟩
  · intro r qd h
    simp only [structured_intents, List.mem_cons, List.not_mem_nil, or_false, not_or] at h
    obtain ⟨h1, h2, h3, h4, h5⟩ := h
    unfold execute_query
    simp only [if_neg h1, if_neg h2, if_neg h3, if_neg h4, if_neg h5]

/-- Witness for C2 (amended): the patient-search path restores the
invariant on a concrete decoded payload. -/
theorem C2_amended_witness : count_eq (execute_query cw_upstream cw_query_data) :=
  C2_amended.2.2.1 cw_upstream cw_query_data (by decide)

/-- Claim C3: the spec asserts `error` is non-null iff `success == false`
for every emitted response.  False: the decoded-JSON path passes both keys
through from upstream; on the concrete decoded payload with
`success == false` and no `error` key the pipeline emits `success == false`
with a null `error`. -/
theorem C3_counterexample :
    process_query c3_env c3_query_data =
      .ok { c3_upstream with executionTime := some "3ms" } ∧
    ({ c3_upstream with executionTime := some "3ms" } : QueryResponse).success = some false ∧
    ({ c3_upstream with executionTime := some "3ms" } : QueryResponse).error = none ∧
    ¬ err_iff { c3_upstream with executionTime := some "3ms" } :=
  ⟨rfl, rfl, rfl, fun h => h.mpr rfl rfl⟩

/-- Claim C3 (amended): `error` non-null iff `success == false` holds on
every envelope the code itself constructs — configuration failure,
degraded-parse fallback, the in-function exception envelope, and the outer
boundary envelope — while `execute_query` always passes `success` and
`error` through from the decoded upstream payload, where the equivalence
is not enforced. -/
theorem C3_amended :
    (∀ q m, err_iff (create_mock_response q m)) ∧
    (∀ raw q ms, err_iff (parse_natural_response raw q ms)) ∧
    (∀ q m, err_iff (process_query_except_envelope q m)) ∧
    (∀ m, err_iff (main_error_envelope m)) ∧
    (∀ r qd, (execute_query r qd).success = r.success ∧
      (execute_query r qd).error = r.error) := by
  refine ⟨fun q m => ?_, fun raw q ms => ?_, fun q m => ?_, fun m => ?_, fun r qd => ?_⟩
  · exact ⟨fun _ => rfl, fun _ => by simp [create_mock_response]⟩
  · exact ⟨fun h => absurd rfl h, fun h => by simp [parse_natural_response] at h⟩
  · exact ⟨fun _ => rfl, fun _ => by simp [process_query_except_envelope]⟩
  · exact ⟨fun _ => rfl, fun _ => by simp [main_error_envelope]⟩
  · simp only [execute_query]
    split_ifs <;> exact ⟨rfl, rfl⟩

set_option maxRecDepth 8192 in
/-- Claim C4: the spec asserts no `results` field ever contains a direct
patient identifier, including on the degraded-parse fallback.  False: the
fallback embeds the raw upstream text verbatim; on a raw answer carrying a
13-digit national ID number the emitted `results` contains that ID. -/
theorem C4_counterexample :
    process_query c4_env c4_query_data =
      .ok (parse_natural_response c4_raw "tell me about recent patients" 4) ∧
    (parse_natural_response c4_raw "tell me about recent patients" 4).results =
      some [[("response", .vStr c4_raw)]] ∧
    results_have_identifier [[("response", .vStr c4_raw)]] = true ∧
    has_id_number "7807215422081" = true :=
  ⟨rfl, rfl, by decide, by decide⟩

/-- Claim C4 (amended): the five structured-intent paths replace `results`
by fixed aggregate tables free of identifier patterns (counts, percentages,
ranges, category labels only); the degraded-parse fallback instead embeds
the raw upstream text verbatim and applies no identifier filtering. -/
theorem C4_amended :
    results_have_identifier get_mock_patient_search_results = false ∧
    results_have_identifier get_mock_medical_analysis_results = false ∧
    results_have_identifier get_mock_compliance_results = false ∧
    results_have_identifier get_mock_risk_assessment_results = false ∧
    results_have_identifier get_mock_operational_results = false ∧
    (∀ raw q ms, (parse_natural_response raw q ms).results =
      some [[("response", .vStr raw)]]) :=
  ⟨by decide, by decide, by decide, by decide, by decide, fun raw q ms => rfl⟩

/-- Claim C7: any fault propagated out of `process_query` (the one escape
is the missing `query` key, whose handler re-raises) is caught at `main`'s
outer boundary and converted to a failure envelope with a generic
interpretation and retry-oriented suggestions; the argument-decode fault
is converted to the same envelope, so no invocation hands a raw fault to
the caller. -/
theorem C7_outer_boundary (env : Env) (qd : QueryData) (e : String)
    (h : process_query env qd = .error e) :
    main_handle env qd = main_error_envelope e ∧
    (main_error_envelope e).success = some false ∧
    (main_error_envelope e).error = some e ∧
    (main_error_envelope e).interpretation = some "Failed to process query" ∧
    (main_error_envelope e).suggestions = some ["Check query format", "Try again later"] ∧
    (∀ dec s m, dec s = Except.error m →
      main_run env dec (some s) = main_error_envelope m) := by
  refine ⟨?_, rfl, rfl, rfl, rfl, ?_⟩
  · unfold main_handle
    rw [h]
  · intro dec s m hm
    show (match dec s with
      | Except.error e => main_error_envelope e
      | Except.ok query_data => main_handle env query_data) = main_error_envelope m
    rw [hm]

/-- Witness for C7 at the concrete request lacking a `query` key. -/
theorem C7_outer_boundary_witness :
    process_query c7_env c7_query_data = .error "UnboundLocalError: query" ∧
    main_handle c7_env c7_query_data = main_error_envelope "UnboundLocalError: query" :=
  ⟨rfl, (C7_outer_boundary c7_env c7_query_data "UnboundLocalError: query" rfl).1⟩

/-- Claim C8: when the decoded query type is COMPLIANCE_REPORTING the
emitted envelope carries exactly one bar chart whose buckets are
Completed, In Progress and Incomplete, and whose values sum to the total
examined population — the sum of the `count` fields of the compliance
results table. -/
theorem C8_compliance_charts (env : Env) (qd : QueryData) (q raw : String)
    (r : QueryResponse)
    (hq : qd.query = some q) (hk : api_key_falsy env.apiKey = false)
    (hl : env.llm = .ok raw) (hd : env.decode raw = .dict r)
    (ht : r.queryType = some "COMPLIANCE_REPORTING") :
    ∃ resp, process_query env qd = .ok resp ∧
      resp.charts = some get_mock_compliance_charts ∧
      resp.results = some get_mock_compliance_results ∧
      get_mock_compliance_charts.length = 1 ∧
      (∀ c ∈ get_mock_compliance_charts,
        c.type = "bar" ∧
        c.data.map ChartPoint.label = ["Completed", "In Progress", "Incomplete"] ∧
        chart_values_sum c = results_count_sum get_mock_compliance_results) := by
  have hx : execute_query { r with executionTime := some (format_ms env.elapsedMs) } qd =
      { r with executionTime := some (format_ms env.elapsedMs),
               results := some get_mock_compliance_results,
               resultCount := some (get_mock_compliance_results.length : Int),
               charts := some get_mock_compliance_charts } := by
    unfold execute_query
    simp only [ht, Option.getD_some]
    rw [if_neg (by decide), if_neg (by decide)]
    simp
  refine ⟨execute_query { r with executionTime := some (format_ms env.elapsedMs) } qd,
    ?_, ?_, ?_, rfl, by decide⟩
  · unfold process_query process_query_core
    rw [hq]
    simp only [hk, Bool.false_eq_true, if_false, hl, hd]
  · rw [hx]
  · rw [hx]

/-- Witness for C8 at a concrete decoded compliance-reporting payload. -/
theorem C8_compliance_charts_witness :
    ∃ resp, process_query c8_env c8_query_data = .ok resp ∧
      resp.charts = some get_mock_compliance_charts ∧
      resp.results = some get_mock_compliance_results ∧
      get_mock_compliance_charts.length = 1 ∧
      (∀ c ∈ get_mock_compliance_charts,
        c.type = "bar" ∧
        c.data.map ChartPoint.label = ["Completed", "In Progress", "Incomplete"] ∧
        chart_values_sum c = results_count_sum get_mock_compliance_results) :=
  C8_compliance_charts c8_env c8_query_data "how many questionnaires are complete"
    "upstream-json-c8" c8_upstream rfl rfl rfl rfl rfl

/-- Claim C9: the spec asserts an unknown or unroutable decoded query type
yields `results == []`, `resultCount == 0`, `charts == []`.  False:
`execute_query` leaves such payloads untouched, and the pipeline emits
whatever the upstream model supplied — here non-empty results and charts
and a non-zero count under `queryType == UNKNOWN`. -/
theorem C9_counterexample :
    c9_upstream.queryType.getD "UNKNOWN" ∉ structured_intents ∧
    process_query c9_env c9_query_data =
      .ok { c9_upstream with executionTime := some "2ms" } ∧
    ({ c9_upstream with executionTime := some "2ms" } : QueryResponse).results ≠ some [] ∧
    ({ c9_upstream with executionTime := some "2ms" } : QueryResponse).resultCount ≠ some 0 ∧
    ({ c9_upstream with executionTime := some "2ms" } : QueryResponse).charts ≠ some [] :=
  ⟨by decide, rfl, by decide, by decide, by decide⟩

/-- Claim C9 (amended): outside the five structured intents,
`execute_query` is the identity — `results`, `resultCount` and `charts`
keep exactly the decoded upstream values, empty only when the upstream
payload already had them so. -/
theorem C9_amended (r : QueryResponse) (qd : QueryData)
    (h : r.queryType.getD "UNKNOWN" ∉ structured_intents) :
    execute_query r qd = r := by
  simp only [structured_intents, List.mem_cons, List.not_mem_nil, or_false, not_or] at h
  obtain ⟨h1, h2, h3, h4, h5⟩ := h
  unfold execute_query
  simp only [if_neg h1, if_neg h2, if_neg h3, if_neg h4, if_neg h5]

/-- Witness for C9 (amended) at the concrete unroutable payload. -/
theorem C9_amended_witness :
    c9_upstream.queryType.getD "UNKNOWN" ∉ structured_intents ∧
    execute_query c9_upstream c9_query_data = c9_upstream :=
  ⟨by decide, C9_amended c9_upstream c9_query_data (by decide)⟩

/-- Claim C10: `execute_query` modifies at most `results`, `resultCount`
and `charts`; `interpretation`, `queryType`, `mongoQuery`, `sqlQuery`,
`executionTime`, `summary` and `suggestions` (and, since its exception
branch is unreachable on dictionary input, also `success` and `error`)
are returned with the values they had on entry. -/
theorem C10_frame (r : QueryResponse) (qd : QueryData) :
    (execute_query r qd).interpretation = r.interpretation ∧
    (execute_query r qd).queryType = r.queryType ∧
    (execute_query r qd).mongoQuery = r.mongoQuery ∧
    (execute_query r qd).sqlQuery = r.sqlQuery ∧
    (execute_query r qd).executionTime = r.executionTime ∧
    (execute_query r qd).summary = r.summary ∧
    (execute_query r qd).suggestions = r.suggestions ∧
    (execute_query r qd).success = r.success ∧
    (execute_query r qd).error = r.error := by
  simp only [execute_query]
  split_ifs <;> exact ⟨rfl, rfl, rfl, rfl, rfl, rfl, rfl, rfl, rfl⟩

end NLQ
